import Mathlib

/-!
# The base virtual-CPU hardware of Avida (`cHardwareBase`)

A shallow embedding of `avida-core/source/cpu/cHardwareBase.h`.

* An `Apto::Array<T>` is the list of its elements; assignment copies the elements.
* `int` entries are integers; `double` entries are exact rationals (this layer only
  stores, compares and adds them).
* Raw pointers to collaborators are handles (`Nat`), except `m_world` and `m_inst_set`,
  which are modelled by what the pointee holds (configuration, number of opcodes).
* A member function is a function of the object state; one that can write (or whose
  frame is under study) returns the state next to its result.
* The state a concrete architecture adds in a derived class (heads, stacks,
  registers, memory spaces, threads) is the field `arch` of an arbitrary type `A`.
-/

namespace Avida

/-- An instruction: an opaque small value that identifies an opcode (`GetOp`). -/
structure Instruction where
  op : Nat
deriving DecidableEq, Repr

/-- Modelled from the spec: the instruction-set registry behind `m_inst_set`
(class `cInstSet` is not in the header). Only the number of opcodes of the active
instruction set is needed: it is what "a uniformly random valid instruction" is drawn from. -/
structure cInstSet where
  size : Nat
deriving DecidableEq, Repr

/-- Modelled from the spec: the world object behind `m_world` (class `cWorld` is only
forward-declared in the header). It supplies the configured per-site point-mutation
rate and the current resource level available to each thread. -/
structure cWorld where
  point_mut_rate : ℚ
  resource_levels : Int → ℚ

/-- Modelled from the spec: the execution context (class `cAvidaContext` is only
forward-declared in the header). It supplies the random source: `stream` is the
sequence of raw 32-bit outputs of the generator and `pos` counts how many were used. -/
structure cAvidaContext where
  stream : Nat → Nat
  pos : Nat

/-- The anonymous bit-field struct of cost flags (lines 62-69). -/
structure CostFlags where
  m_has_any_costs : Bool
  m_has_costs : Bool
  m_has_ft_costs : Bool
  m_has_res_costs : Bool
  m_has_post_costs : Bool
  m_has_bonus_costs : Bool
deriving DecidableEq, Repr

/-- The data members of `cHardwareBase` (lines 47-77), then the state of the concrete
architecture that derives from it. -/
structure cHardwareBase (A : Type) where
  m_world : cWorld
  m_organism : Nat
  m_inst_set : cInstSet
  m_tracer : Option Nat
  m_inst_ft_cost : List Int
  m_inst_res_cost : List ℚ
  m_inst_bonus_cost : List ℚ
  m_thread_inst_cost : List Int
  m_thread_inst_post_cost : List Int
  m_active_thread_costs : List Int
  m_active_thread_post_costs : List Int
  flags : CostFlags
  m_ext_mem : List Int
  m_implicit_repro_active : Bool
  null_str : String
  arch : A

variable {A : Type}

/-! ## Member functions whose body is in the header -/

/-- Line 84: `cOrganism* GetOrganism() { return m_organism; }`. -/
def GetOrganism (h : cHardwareBase A) : Nat × cHardwareBase A :=
  (h.m_organism, h)

/-- Line 85: `const cInstSet& GetInstSet() const { return *m_inst_set; }`. -/
def GetInstSet (h : cHardwareBase A) : cInstSet × cHardwareBase A :=
  (h.m_inst_set, h)

/-- Line 102: `void SetupExtendedMemory(const Array<int, Smart>& ext_mem) { m_ext_mem = ext_mem; }`. -/
def SetupExtendedMemory (h : cHardwareBase A) (ext_mem : List Int) : cHardwareBase A :=
  { h with m_ext_mem := ext_mem }

/-- Line 106: `virtual int GetCurStack(int in_thread_id = -1) const { (void)in_thread_id; return -1; }`. -/
def GetCurStack (h : cHardwareBase A) (in_thread_id : Int := -1) : Int × cHardwareBase A :=
  let _ := in_thread_id
  (-1, h)

/-- Line 132: `const Array<int, Smart>& GetExtendedMemory() const { return m_ext_mem; }`. -/
def GetExtendedMemory (h : cHardwareBase A) : List Int × cHardwareBase A :=
  (h.m_ext_mem, h)

/-- Line 151: `virtual void InheritState(cHardwareBase&) { ; }`, called on the child
`self` with the parent passed by (non-const) reference; returns both objects. -/
def InheritState (self : cHardwareBase A) (parent_hardware : cHardwareBase A) :
    cHardwareBase A × cHardwareBase A :=
  (self, parent_hardware)

/-- What a run of a member function leaves behind: the context, the hardware, and the
calls made to the private `checkImplicitRepro`, each recorded by the argument
`exec_last_inst` it received, in order. -/
structure ReproRun (A : Type) where
  ctx : cAvidaContext
  hw : cHardwareBase A
  calls : List Bool

/-- Lines 171-172:
`inline void CheckImplicitRepro(cAvidaContext& ctx, bool exec_last_inst = false)
   { if (m_implicit_repro_active) checkImplicitRepro(ctx, exec_last_inst); }`.
The private `checkImplicitRepro` (line 195) has no body in the header, so its effect
on the context and the hardware is the parameter `checkImplicitRepro`. -/
def CheckImplicitRepro
    (checkImplicitRepro : cAvidaContext → Bool → cHardwareBase A → cAvidaContext × cHardwareBase A)
    (ctx : cAvidaContext) (h : cHardwareBase A) (exec_last_inst : Bool := false) : ReproRun A :=
  if h.m_implicit_repro_active then
    let r := checkImplicitRepro ctx exec_last_inst h
    { ctx := r.1, hw := r.2, calls := [exec_last_inst] }
  else
    { ctx := ctx, hw := h, calls := [] }

/-! ## Member functions that the header only declares

Their bodies are in no file of the sources, so each is modelled from the words of the
specification. -/

/-- Modelled from the spec: the body of `Inst_Nop` (declared at line 167, "A no-operation
instruction that does nothing!") is missing. "`Inst_Nop(ctx) -> bool` performs no state
change and always succeeds". -/
def Inst_Nop (ctx : cAvidaContext) (h : cHardwareBase A) : Bool × cAvidaContext × cHardwareBase A :=
  (true, ctx, h)

/-- Modelled from the spec: the random source of the context is missing. The next raw
output of the generator, a value below `2 ^ 32`, and the advanced context. -/
def cAvidaContext.next (ctx : cAvidaContext) : Nat × cAvidaContext :=
  (ctx.stream ctx.pos % 2 ^ 32, { ctx with pos := ctx.pos + 1 })

/-- Modelled from the spec: the cost lookup of `SingleProcess_PayPreCosts` is missing. "The
fixed, resource, and bonus costs for `instruction`", summed; `none` when the opcode id is
outside a table ("a precondition violation"). -/
def preCost (h : cHardwareBase A) (cur_inst : Instruction) : Option ℚ :=
  match h.m_inst_ft_cost[cur_inst.op]?, h.m_inst_res_cost[cur_inst.op]?,
      h.m_inst_bonus_cost[cur_inst.op]? with
  | some ft, some res, some bonus => some ((ft : ℚ) + res + bonus)
  | _, _, _ => none

/-- Modelled from the spec: the body of `SingleProcess_PayPreCosts` (declared at line 158) is
missing. It "evaluates whether the fixed, resource, and bonus costs for `instruction` can be
paid given current world resource levels for the thread identified; if affordable, it deducts
resources/registers the debt and returns true [...]; if not affordable, returns false". -/
def SingleProcess_PayPreCosts (ctx : cAvidaContext) (h : cHardwareBase A)
    (cur_inst : Instruction) (thread_id : Int) :
    Option (Bool × cAvidaContext × cHardwareBase A) :=
  match preCost h cur_inst with
  | none => none
  | some cost =>
    let available := h.m_world.resource_levels thread_id
    if cost ≤ available then
      some (true, ctx,
        { h with m_world := { h.m_world with
            resource_levels := Function.update h.m_world.resource_levels thread_id (available - cost) } })
    else
      some (false, ctx, h)

/-! ## Views of the state used to state frame properties -/

/-- The cost bookkeeping of a hardware instance: the five per-opcode cost tables, the
two active-thread cost arrays and the cost flags. -/
structure CostBookkeeping where
  ft : List Int
  res : List ℚ
  bonus : List ℚ
  thread : List Int
  thread_post : List Int
  active : List Int
  active_post : List Int
  flags : CostFlags
deriving DecidableEq

/-- The cost bookkeeping held by `h`. -/
def costBookkeeping (h : cHardwareBase A) : CostBookkeeping :=
  { ft := h.m_inst_ft_cost, res := h.m_inst_res_cost, bonus := h.m_inst_bonus_cost,
    thread := h.m_thread_inst_cost, thread_post := h.m_thread_inst_post_cost,
    active := h.m_active_thread_costs, active_post := h.m_active_thread_post_costs,
    flags := h.flags }

/-- Two hardware states agree on every data member other than `m_ext_mem`. -/
def sameExceptExtMem (h k : cHardwareBase A) : Prop :=
  h.m_world = k.m_world ∧ h.m_organism = k.m_organism ∧ h.m_inst_set = k.m_inst_set ∧
  h.m_tracer = k.m_tracer ∧ costBookkeeping h = costBookkeeping k ∧
  h.m_implicit_repro_active = k.m_implicit_repro_active ∧ h.null_str = k.null_str ∧
  h.arch = k.arch

/-- A world with no configured point mutation where every thread holds 1 resource unit. -/
def unitWorld : cWorld :=
  { point_mut_rate := 0, resource_levels := fun _ => 1 }

/-- A context whose generator outputs 0, 1, 2, ... -/
def countingCtx : cAvidaContext :=
  { stream := fun n => n, pos := 0 }

/-- A hardware instance over an instruction set of 4 opcodes with fixed costs `[0,1,2,0]`
and no other cost, in `unitWorld`; its active-thread arrays hold one thread. -/
def scenarioHardware : cHardwareBase Unit :=
  { m_world := unitWorld, m_organism := 7, m_inst_set := ⟨4⟩, m_tracer := none,
    m_inst_ft_cost := [0, 1, 2, 0], m_inst_res_cost := [0, 0, 0, 0],
    m_inst_bonus_cost := [0, 0, 0, 0], m_thread_inst_cost := [0, 0, 0, 0],
    m_thread_inst_post_cost := [0, 0, 0, 0], m_active_thread_costs := [0],
    m_active_thread_post_costs := [0],
    flags := ⟨true, false, true, false, false, false⟩,
    m_ext_mem := [5, -3], m_implicit_repro_active := false, null_str := "", arch := () }

/-- The same instance with implicit reproduction switched on. -/
def reproHardware : cHardwareBase Unit :=
  { scenarioHardware with m_implicit_repro_active := true }

/-- A trigger logic that consumes one random number and stores the flag it was given in
extended memory. -/
def markingTrigger (ctx : cAvidaContext) (exec_last_inst : Bool) (h : cHardwareBase Unit) :
    cAvidaContext × cHardwareBase Unit :=
  (ctx.next.2, { h with m_ext_mem := [if exec_last_inst then 1 else 0] })

/-! ## Extended memory (C1) -/

/-- C1: whatever extended memory the hardware held, `GetExtendedMemory` after
`SetupExtendedMemory a` returns `a` itself: the same list, hence the same length and the
same element at every index; this includes the empty array. -/
theorem extended_memory_round_trip (h : cHardwareBase A) (a : List Int) :
    (GetExtendedMemory (SetupExtendedMemory h a)).1 = a ∧
    (GetExtendedMemory (SetupExtendedMemory h a)).1.length = a.length ∧
    (∀ i : Nat, (GetExtendedMemory (SetupExtendedMemory h a)).1[i]? = a[i]?) ∧
    (GetExtendedMemory (SetupExtendedMemory h [])).1 = [] :=
  ⟨rfl, rfl, fun _ => rfl, rfl⟩

/-! ## State transfer (C2) -/

/-- C2: the default `InheritState` returns the child and the parent exactly as they were;
in particular the extended memory of the child is its own and not that of the parent. -/
theorem InheritState_default_no_op (c p : cHardwareBase A) :
    (InheritState c p).1 = c ∧ (InheritState c p).2 = p ∧
    (InheritState c p).1.m_ext_mem = c.m_ext_mem ∧
    (InheritState c p).1.m_tracer = c.m_tracer ∧
    (InheritState c p).1.m_implicit_repro_active = c.m_implicit_repro_active ∧
    costBookkeeping (InheritState c p).1 = costBookkeeping c :=
  ⟨rfl, rfl, rfl, rfl, rfl, rfl⟩

/-! ## Implicit reproduction (C3) -/

/-- C3: with `m_implicit_repro_active` false, `CheckImplicitRepro` leaves context and
hardware as they were and makes no call to `checkImplicitRepro`; with it true, the outcome
is that of `checkImplicitRepro ctx exec_last_inst` and the calls made are that single one,
with the flag as received; an omitted flag is `false`. -/
theorem CheckImplicitRepro_gated
    (trigger : cAvidaContext → Bool → cHardwareBase A → cAvidaContext × cHardwareBase A)
    (ctx : cAvidaContext) (h : cHardwareBase A) (exec_last_inst : Bool) :
    (h.m_implicit_repro_active = false →
      CheckImplicitRepro trigger ctx h exec_last_inst = ⟨ctx, h, []⟩) ∧
    (h.m_implicit_repro_active = true →
      CheckImplicitRepro trigger ctx h exec_last_inst =
        ⟨(trigger ctx exec_last_inst h).1, (trigger ctx exec_last_inst h).2, [exec_last_inst]⟩) ∧
    CheckImplicitRepro trigger ctx h = CheckImplicitRepro trigger ctx h false := by
  refine ⟨fun hoff => ?_, fun hon => ?_, rfl⟩
  · simp [CheckImplicitRepro, hoff]
  · simp [CheckImplicitRepro, hon]

/-- C3 at concrete inputs: the switched-off instance is untouched by a trigger that would
overwrite extended memory, and the switched-on instance gets exactly that overwrite. -/
theorem CheckImplicitRepro_gated_witness :
    (CheckImplicitRepro markingTrigger countingCtx scenarioHardware true).hw.m_ext_mem = [5, -3] ∧
    (CheckImplicitRepro markingTrigger countingCtx scenarioHardware true).calls = [] ∧
    (CheckImplicitRepro markingTrigger countingCtx reproHardware true).hw.m_ext_mem = [1] ∧
    (CheckImplicitRepro markingTrigger countingCtx reproHardware true).calls = [true] := by
  have hoff := (CheckImplicitRepro_gated markingTrigger countingCtx scenarioHardware true).1 rfl
  have hon := (CheckImplicitRepro_gated markingTrigger countingCtx reproHardware true).2.1 rfl
  rw [hoff, hon]
  exact ⟨rfl, rfl, rfl, rfl⟩

/-! ## The no-operation instruction (C4) -/

/-- C4: `Inst_Nop` returns true and hands back the context and the hardware it was given:
the architecture state (heads, stacks, registers, memory spaces), the cost bookkeeping and
the extended memory are the ones before the call. -/
theorem Inst_Nop_succeeds_without_change (ctx : cAvidaContext) (h : cHardwareBase A) :
    (Inst_Nop ctx h).1 = true ∧ (Inst_Nop ctx h).2.1 = ctx ∧ (Inst_Nop ctx h).2.2 = h ∧
    (Inst_Nop ctx h).2.2.arch = h.arch ∧
    costBookkeeping (Inst_Nop ctx h).2.2 = costBookkeeping h ∧
    (Inst_Nop ctx h).2.2.m_ext_mem = h.m_ext_mem :=
  ⟨rfl, rfl, rfl, rfl, rfl, rfl⟩

/-! ## Cost bookkeeping is framed by the operations of the header (C9) -/

/-- C9: `SetupExtendedMemory`, `GetExtendedMemory`, the default `InheritState` (on child and
parent), the default `GetCurStack`, `GetOrganism` and `GetInstSet` leave the cost tables, the
active-thread cost arrays and the cost flags as they were, and `SetupExtendedMemory` changes
no data member other than `m_ext_mem`. -/
theorem cost_bookkeeping_framed (h p : cHardwareBase A) (a : List Int) (t : Int) :
    costBookkeeping (SetupExtendedMemory h a) = costBookkeeping h ∧
    costBookkeeping (GetExtendedMemory h).2 = costBookkeeping h ∧
    costBookkeeping (InheritState h p).1 = costBookkeeping h ∧
    costBookkeeping (InheritState h p).2 = costBookkeeping p ∧
    costBookkeeping (GetCurStack h t).2 = costBookkeeping h ∧
    costBookkeeping (GetOrganism h).2 = costBookkeeping h ∧
    costBookkeeping (GetInstSet h).2 = costBookkeeping h ∧
    sameExceptExtMem (SetupExtendedMemory h a) h :=
  ⟨rfl, rfl, rfl, rfl, rfl, rfl, rfl, rfl, rfl, rfl, rfl, rfl, rfl, rfl, rfl⟩

/-! ## The current stack (C10) -/

/-- C10: the default `GetCurStack` returns -1 for every thread id, the omitted one
included, whatever the argument, and returns the hardware as it was. -/
theorem GetCurStack_default (h : cHardwareBase A) (in_thread_id : Int) :
    GetCurStack h in_thread_id = (-1, h) ∧ GetCurStack h = (-1, h) ∧
    (∀ other : Int, (GetCurStack h other).1 = (GetCurStack h in_thread_id).1) :=
  ⟨rfl, rfl, fun _ => rfl⟩

/-! ## Point mutation (C5) -/

/-- C7: for an opcode inside the fixed, resource and bonus cost tables, the cost of the
instruction is defined; when it exceeds the resource level of the thread,
`SingleProcess_PayPreCosts` returns false with context and hardware unchanged; when it does
not, the call returns true, the resource level of that thread is lower by exactly the cost,
and the level of every other thread, the cost bookkeeping, the extended memory and the
architecture state are unchanged. -/
theorem SingleProcess_PayPreCosts_all_or_nothing (ctx : cAvidaContext) (h : cHardwareBase A)
    (cur_inst : Instruction) (thread_id : Int)
    (hft : cur_inst.op < h.m_inst_ft_cost.length)
    (hres : cur_inst.op < h.m_inst_res_cost.length)
    (hbonus : cur_inst.op < h.m_inst_bonus_cost.length) :
    ∃ cost : ℚ, preCost h cur_inst = some cost ∧
      (h.m_world.resource_levels thread_id < cost →
        SingleProcess_PayPreCosts ctx h cur_inst thread_id = some (false, ctx, h)) ∧
      (cost ≤ h.m_world.resource_levels thread_id →
        ∃ h2 : cHardwareBase A,
          SingleProcess_PayPreCosts ctx h cur_inst thread_id = some (true, ctx, h2) ∧
          h2.m_world.resource_levels thread_id = h.m_world.resource_levels thread_id - cost ∧
          (∀ t : Int, t ≠ thread_id →
            h2.m_world.resource_levels t = h.m_world.resource_levels t) ∧
          h2.m_world.point_mut_rate = h.m_world.point_mut_rate ∧
          costBookkeeping h2 = costBookkeeping h ∧ h2.m_ext_mem = h.m_ext_mem ∧
          h2.arch = h.arch) := by
  have hc : preCost h cur_inst =
      some ((h.m_inst_ft_cost[cur_inst.op] : ℚ) + h.m_inst_res_cost[cur_inst.op]
        + h.m_inst_bonus_cost[cur_inst.op]) := by
    simp [preCost, List.getElem?_eq_getElem, hft, hres, hbonus]
  refine ⟨_, hc, fun hlt => ?_, fun hle => ?_⟩
  · simp only [SingleProcess_PayPreCosts, hc]
    rw [if_neg (not_le.mpr hlt)]
  · refine ⟨{ h with m_world := { h.m_world with
        resource_levels := Function.update h.m_world.resource_levels thread_id
          (h.m_world.resource_levels thread_id -
            ((h.m_inst_ft_cost[cur_inst.op] : ℚ) + h.m_inst_res_cost[cur_inst.op]
              + h.m_inst_bonus_cost[cur_inst.op])) } },
      ?_, ?_, fun t ht => ?_, rfl, rfl, rfl, rfl⟩
    · simp only [SingleProcess_PayPreCosts, hc]
      rw [if_pos hle]
    · simp
    · simp [Function.update, ht]

/-- C7 on the scenario of the spec: fixed costs `[0,1,2,0]`, a thread with 1 resource unit.
The cost-2 opcode is refused with nothing changed; the cost-1 opcode is then paid and the
level of the thread drops from 1 to 0. -/
theorem SingleProcess_PayPreCosts_scenario :
    SingleProcess_PayPreCosts countingCtx scenarioHardware ⟨2⟩ 0
      = some (false, countingCtx, scenarioHardware) ∧
    ∃ h2 : cHardwareBase Unit,
      SingleProcess_PayPreCosts countingCtx scenarioHardware ⟨1⟩ 0 = some (true, countingCtx, h2) ∧
      h2.m_world.resource_levels 0 = 0 ∧ costBookkeeping h2 = costBookkeeping scenarioHardware := by
  obtain ⟨c2, hc2, hrefuse, -⟩ := SingleProcess_PayPreCosts_all_or_nothing countingCtx
    scenarioHardware ⟨2⟩ 0 (by decide) (by decide) (by decide)
  obtain ⟨c1, hc1, -, hpay⟩ := SingleProcess_PayPreCosts_all_or_nothing countingCtx
    scenarioHardware ⟨1⟩ 0 (by decide) (by decide) (by decide)
  have e2 : c2 = 2 := by
    have : preCost scenarioHardware ⟨2⟩ = some 2 := by norm_num [preCost, scenarioHardware]
    rw [this] at hc2
    exact (Option.some.inj hc2).symm
  have e1 : c1 = 1 := by
    have : preCost scenarioHardware ⟨1⟩ = some 1 := by norm_num [preCost, scenarioHardware]
    rw [this] at hc1
    exact (Option.some.inj hc1).symm
  subst e2 e1
  have hlevel : scenarioHardware.m_world.resource_levels 0 = 1 := rfl
  refine ⟨hrefuse (by rw [hlevel]; norm_num), ?_⟩
  obtain ⟨h2, hrun, hbal, -, -, hbook, -, -⟩ := hpay (by rw [hlevel])
  exact ⟨h2, hrun, by rw [hbal, hlevel]; norm_num, hbook⟩

end Avida
